import Mathlib

/-!
# Verification of the ai-consensus multi-provider orchestration core

A shallow embedding, in Lean 4, of the orchestration core of the
`ai-consensus` repository:

* `apps/ai_services/utils/token_extractor.py` (token accounting),
* `apps/ai_services/services/base.py` (shared provider-client helpers),
* `apps/ai_services/services/claude_service.py`, `openai_service.py`,
  `gemini_service.py` (the three provider clients),
* `apps/ai_services/services/web_search_coordinator.py` (cache, in-flight
  deduplication, per-user rate limiting),
* `api/v1/test_ai.py` (the fan-out orchestrator: `process_claude`,
  `process_openai`, `process_gemini`, `generate_synopsis_with_same_ai`,
  `process_all_services_async`, `test_ai_services`).

Python dicts whose value sets are heterogeneous are embedded as structures
with `Option` fields (a missing key is `none`); dicts used as string-keyed
integer tables are embedded as association lists.  Network I/O is made
explicit: each client takes the upstream HTTP outcome as a parameter and
additionally reports whether the upstream request was issued at all.
Wall-clock values (the current date string) are passed in as parameters.
The MD5 digest used for cache keys is abstracted as a `String → String`
parameter; every property proved or refuted below holds for an arbitrary
digest function.
-/

namespace AiConsensus

/-- Python `dict.get(key, default)` over a string-keyed integer table
(association list).  Models the `usage` dictionaries consumed by
`extract_tokens`. -/
def dget (d : List (String × Int)) (key : String) (dflt : Int) : Int :=
  match d.find? (fun p => p.1 = key) with
  | some p => p.2
  | none => dflt

/-- Python `str.lower()`: character-wise lower-casing (embedded over the
string's character list so that it evaluates by kernel reduction). -/
def pyLower (s : String) : String := ⟨s.data.map Char.toLower⟩

/-- Python `str.strip()`: drop leading and trailing whitespace. -/
def pyStrip (s : String) : String :=
  ⟨((s.data.dropWhile Char.isWhitespace).reverse.dropWhile
      Char.isWhitespace).reverse⟩

/-- The slice of a provider response's `metadata` dict consumed by the
token extractor: `metadata.get('usage', {})`.  `usage = none` models a
metadata dict with no `'usage'` key (e.g. the `{}` produced by
`format_error_response`). -/
structure Metadata where
  usage : Option (List (String × Int)) := none
deriving DecidableEq

/-- `extract_tokens(metadata, service_name)` from
`apps/ai_services/utils/token_extractor.py` lines 13-52.  Total by
construction: unknown service names fall through to `(0, 0)`. -/
def extract_tokens (metadata : Metadata) (service_name : String) : Int × Int :=
  let s := pyLower service_name
  let usage := metadata.usage.getD []
  if s = "claude" then
    (dget usage "input_tokens" 0, dget usage "output_tokens" 0)
  else if s = "openai" then
    (dget usage "prompt_tokens" 0, dget usage "completion_tokens" 0)
  else if s = "gemini" then
    (dget usage "promptTokenCount" (dget usage "prompt_token_count" 0),
     dget usage "candidatesTokenCount" (dget usage "candidates_token_count" 0))
  else
    (0, 0)

/-- `calculate_total_tokens` from `token_extractor.py` lines 55-66. -/
def calculate_total_tokens (input_tokens : Int) (output_tokens : Int) : Int :=
  input_tokens + output_tokens

/-! ## Web search coordinator (`web_search_coordinator.py`)

`WebSearchCoordinator.search_for_query` (lines 45-108) is embedded twice:

* `search_for_query_one` — the sequential behaviour of a single call on a
  coordinator whose in-flight registry is empty (this is how the
  orchestrator uses it: `process_all_services_async` constructs a fresh
  `WebSearchCoordinator` per request, so a lone call never finds a
  registered in-flight future).  The Django cache backing both the search
  cache and the per-user rate counters is threaded through explicitly.

* a small-step transition system (further below) for the concurrent
  behaviour of N callers sharing one coordinator instance, used for the
  in-flight deduplication invariant. -/

/-- The user-location hint (`user_location` dict with city/region/country).
`search_for_query` receives it but — as the theorems below record — never
consults it when computing the cache key. -/
structure Location where
  city : String
  region : String
  country : String
deriving DecidableEq

/-- One search-result dict as returned by `search_for_query` /
`_perform_search`: the fields every exit path of the coordinator populates
(`success`, `error`, `results`, `sources`, `search_calls_made`).  The
per-result entries are kept abstract as strings since no claim inspects
them. -/
structure SearchOutcome where
  success : Bool
  error : Option String
  results : List String
  sources : List String
  search_calls_made : Nat
deriving DecidableEq

/-- `CACHE_TTL = 15 * 60` (line 24). -/
def CACHE_TTL : Nat := 15 * 60

/-- `RATE_LIMIT_WINDOW = 3600` (line 25). -/
def RATE_LIMIT_WINDOW : Nat := 3600

/-- `MAX_SEARCHES_PER_USER_PER_HOUR = 20` (line 26). -/
def MAX_SEARCHES_PER_USER_PER_HOUR : Nat := 20

/-- `_generate_cache_key` (lines 358-365): lower-case and strip the query,
append an underscore and the current date string
(`datetime.now().strftime('%Y-%m-%d')`, i.e. the *local* date), hash, and
prefix with `web_search:`.  `md5hex` abstracts `hashlib.md5(...).hexdigest()`;
`dateStr` abstracts the formatted current date. -/
def generate_cache_key (md5hex : String → String) (query : String)
    (dateStr : String) : String :=
  "web_search:" ++ md5hex (pyStrip (pyLower query) ++ "_" ++ dateStr)

/-- The cache key a `search_for_query` call computes for a given query and
user location (line 77: `cache_key = self._generate_cache_key(user_query)`).
The `user_location` argument of `search_for_query` does not flow into the
key. -/
def search_cache_key (md5hex : String → String) (user_query : String)
    (user_location : Option Location) (dateStr : String) : String :=
  generate_cache_key md5hex user_query dateStr

/-- The Django cache as seen by the coordinator: the `web_search:*` entries
(each stored together with the TTL passed to `cache.set`) and the
`web_search_rate:*` counters (`cache.get(rate_key, 0)` reads a missing
counter as 0, so counters are total with default 0). -/
structure CoordEnv where
  cache : String → Option (SearchOutcome × Nat)
  rate : String → Nat

/-- `_check_rate_limit` (lines 367-373). -/
def check_rate_limit (env : CoordEnv) (userId : String) : Bool :=
  env.rate userId < MAX_SEARCHES_PER_USER_PER_HOUR

/-- The rate-limit rejection dict returned at lines 68-74. -/
def rate_limited_result : SearchOutcome :=
  { success := false
    error := some "Rate limit exceeded. Please try again later."
    results := []
    sources := []
    search_calls_made := 0 }

/-- Result of one sequential `search_for_query` call: the returned dict,
the cache/counter state after the call, and whether the underlying search
(`_perform_search`, i.e. the SearchClient) was invoked. -/
structure CallOutcome where
  result : SearchOutcome
  env : CoordEnv
  searchInvoked : Bool

/-- The body of `search_for_query` after the rate-limit gate (lines
77-108) for a call on an empty in-flight registry: compute the key, return
a cached entry if present, otherwise perform the search, cache the result
under `CACHE_TTL` (success or failure alike), and charge the user's
counter by `result.get('search_calls_made', 0)` (`_update_rate_limit`,
lines 375-382).  `perform` is the dict `_perform_search` resolves to. -/
def search_for_query_body (env : CoordEnv) (md5hex : String → String)
    (user_query : String) (user : Option String) (dateStr : String)
    (perform : SearchOutcome) : CallOutcome :=
  let cache_key := generate_cache_key md5hex user_query dateStr
  match env.cache cache_key with
  | some entry => ⟨entry.1, env, false⟩
  | none =>
    let result := perform
    let env1 : CoordEnv :=
      { env with cache := fun k =>
          if k = cache_key then some (result, CACHE_TTL) else env.cache k }
    let env2 : CoordEnv :=
      match user with
      | some u =>
        { env1 with rate := fun k =>
            if k = u then env1.rate u + result.search_calls_made
            else env1.rate k }
      | none => env1
    ⟨result, env2, true⟩

/-- One sequential `search_for_query` call (lines 45-108), with the
in-flight registry empty.  The rate-limit gate at line 67 fires only for a
present (`user and ...`) user whose counter has reached the budget; it
returns before the cache key is even computed. -/
def search_for_query_one (env : CoordEnv) (md5hex : String → String)
    (user_query : String) (user : Option String)
    (user_location : Option Location) (dateStr : String)
    (perform : SearchOutcome) : CallOutcome :=
  match user with
  | some u =>
    if ¬ check_rate_limit env u then ⟨rate_limited_result, env, false⟩
    else search_for_query_body env md5hex user_query (some u) dateStr perform
  | none => search_for_query_body env md5hex user_query none dateStr perform

/-! ## Concurrent semantics of `search_for_query` (in-flight deduplication)

`asyncio` runs coroutines cooperatively on one thread: code between two
`await` points executes atomically.  In `search_for_query` the only
suspension points are `await self._active_searches[cache_key]` (line 88,
the waiter path) and `await search_future` (line 95, the owner path);
`asyncio.create_task` at line 91 schedules `_perform_search` without
running it.  A caller therefore takes one of three atomic first steps —
return a cached entry (line 83), join an in-flight future (line 88), or
register a fresh future (lines 91-92) — and, if it suspended, one atomic
resumption step.  The owner's resumption (lines 95-108) stores the result
in the cache, and the `finally` block pops the registry entry, in the same
atomic block.  `_perform_search` wraps its whole body in
`try/except Exception` and always resolves to a result dict (lines
195-203), so task resolution carries an arbitrary `SearchOutcome` —
success or failure.  `_perform_search` touches neither the cache nor the
registry.

All callers here share one cache key (the claim's scenario) and carry no
`user` (as in the orchestrator's call at `test_ai.py` lines 418-423), so
the rate-limit gate at line 67 is skipped.  Keys other than the shared one
are independent in the source (both maps are keyed), so the state below is
the projection of the coordinator to that one key. -/

/-- Status of a spawned `_perform_search` task. -/
inductive SearchTaskSt
  | pending
  | resolved (r : SearchOutcome)
deriving DecidableEq

/-- Control state of one `search_for_query` caller. -/
inductive CallerSt
  | start
  | owner (tid : Nat)
  | waiter (tid : Nat)
  | done (r : SearchOutcome)
deriving DecidableEq

/-- Shared state: the cache entry for the key, the in-flight registry
entry for the key (`_active_searches`, holding the index of the spawned
task), the spawned tasks, and each caller's control state. -/
structure CoordSys where
  cache : Option SearchOutcome
  active : Option Nat
  tasks : List SearchTaskSt
  callers : List CallerSt
deriving DecidableEq

/-- Initial state for `n` concurrent callers: nothing cached, nothing in
flight. -/
def coordInit (n : Nat) : CoordSys :=
  { cache := none, active := none, tasks := [], callers := List.replicate n .start }

/-- One atomic step of the system (scheduler's choice). -/
inductive CoordStep : CoordSys → CoordSys → Prop
  /-- Line 80-83: the cache holds an entry; the caller returns it without
  suspending. -/
  | startCached (s s' : CoordSys) (i : Nat) (r : SearchOutcome)
      (hc : s.callers[i]? = some .start)
      (hit : s.cache = some r)
      (heq : s' = { s with callers := s.callers.set i (.done r) }) :
      CoordStep s s'
  /-- Line 86-88: no cache entry, but the key is registered in flight; the
  caller suspends on the registered future. -/
  | startWaiter (s s' : CoordSys) (i : Nat) (t : Nat)
      (hc : s.callers[i]? = some .start)
      (hmiss : s.cache = none)
      (hact : s.active = some t)
      (heq : s' = { s with callers := s.callers.set i (.waiter t) }) :
      CoordStep s s'
  /-- Lines 91-95: no cache entry and nothing in flight; the caller spawns
  a `_perform_search` task, registers it, and suspends on it. -/
  | startOwner (s s' : CoordSys) (i : Nat)
      (hc : s.callers[i]? = some .start)
      (hmiss : s.cache = none)
      (hact : s.active = none)
      (heq : s' = { s with
        callers := s.callers.set i (.owner s.tasks.length)
        active := some s.tasks.length
        tasks := s.tasks ++ [.pending] }) :
      CoordStep s s'
  /-- A spawned `_perform_search` task resolves to some result dict
  (success or failure — lines 174-203). -/
  | resolveTask (s s' : CoordSys) (t : Nat) (r : SearchOutcome)
      (ht : s.tasks[t]? = some .pending)
      (heq : s' = { s with tasks := s.tasks.set t (.resolved r) }) :
      CoordStep s s'
  /-- Lines 95-108: the owner resumes once its task resolved; it stores
  the result in the cache (`cache.set`, success or failure alike), returns
  it, and the `finally` block pops the registry entry. -/
  | ownerResume (s s' : CoordSys) (i : Nat) (t : Nat) (r : SearchOutcome)
      (hc : s.callers[i]? = some (.owner t))
      (ht : s.tasks[t]? = some (.resolved r))
      (heq : s' = { s with
        callers := s.callers.set i (.done r)
        cache := some r
        active := none }) :
      CoordStep s s'
  /-- Line 88: a waiter resumes with the shared task's result. -/
  | waiterResume (s s' : CoordSys) (i : Nat) (t : Nat) (r : SearchOutcome)
      (hc : s.callers[i]? = some (.waiter t))
      (ht : s.tasks[t]? = some (.resolved r))
      (heq : s' = { s with callers := s.callers.set i (.done r) }) :
      CoordStep s s'

/-- Reachability from the initial state. -/
def CoordReach (n : Nat) (s : CoordSys) : Prop :=
  Relation.ReflTransGen CoordStep (coordInit n) s

/-- Number of spawned-but-unresolved search tasks ("outbound calls in
flight"). -/
def countPending (ts : List SearchTaskSt) : Nat :=
  (ts.filter (fun t => t = .pending)).length

theorem lt_length_of_getElem {α : Type} {l : List α} {i : Nat} {x : α}
    (h : l[i]? = some x) : i < l.length := by
  by_contra hge
  rw [List.getElem?_eq_none (Nat.le_of_not_lt hge)] at h
  exact Option.noConfusion h

theorem getElem_set_cases {α : Type} {l : List α} {i j : Nat} {a b : α}
    (h : (l.set i a)[j]? = some b) :
    (j = i ∧ b = a) ∨ (j ≠ i ∧ l[j]? = some b) := by
  by_cases hij : j = i
  · subst hij
    left
    refine ⟨rfl, ?_⟩
    have hlt : j < l.length := by
      have := lt_length_of_getElem h
      simpa [List.length_set] using this
    rw [List.getElem?_set_eq_of_lt a hlt] at h
    exact (Option.some_inj.mp h).symm
  · right
    exact ⟨hij, by rwa [List.getElem?_set_ne (fun he => hij he.symm)] at h⟩

/-- The coupling invariant of the deduplication machinery: at most one
search task ever exists for the key; the cache, the registry entry, and
every suspended or finished caller all refer to that single task; the
registry entry is present exactly while the owner has not yet resumed. -/
structure CoordInv (s : CoordSys) : Prop where
  tasks_le : s.tasks.length ≤ 1
  cache_resolved : ∀ r : SearchOutcome, s.cache = some r → s.tasks = [.resolved r]
  done_resolved : ∀ (i : Nat) (r : SearchOutcome),
    s.callers[i]? = some (.done r) → s.tasks = [.resolved r]
  active_state : ∀ t : Nat, s.active = some t →
    t = 0 ∧ s.tasks.length = 1 ∧ s.cache = none ∧
      ∃ j : Nat, s.callers[j]? = some (.owner t)
  attached_zero : ∀ (i t : Nat),
    s.callers[i]? = some (.owner t) ∨ s.callers[i]? = some (.waiter t) →
      t = 0 ∧ s.tasks.length = 1
  owner_active : ∀ (i t : Nat), s.callers[i]? = some (.owner t) → s.active = some t
  owner_unique : ∀ (i j t t' : Nat), s.callers[i]? = some (.owner t) →
    s.callers[j]? = some (.owner t') → i = j
  task_owned : s.tasks.length = 1 → s.active = some 0 ∨ s.cache ≠ none

theorem coordInit_callers {n i : Nat} {x : CallerSt}
    (h : (coordInit n).callers[i]? = some x) : x = .start := by
  have hm := List.getElem?_mem h
  exact (List.mem_replicate.mp hm).2

theorem coordInv_init (n : Nat) : CoordInv (coordInit n) := by
  refine ⟨?_, ?_, ?_, ?_, ?_, ?_, ?_, ?_⟩
  · simp [coordInit]
  · intro r h; simp [coordInit] at h
  · intro i r h; exact absurd (coordInit_callers h) (by simp)
  · intro t h; simp [coordInit] at h
  · intro i t h
    rcases h with h | h <;> exact absurd (coordInit_callers h) (by simp)
  · intro i t h; exact absurd (coordInit_callers h) (by simp)
  · intro i j t t' h _; exact absurd (coordInit_callers h) (by simp)
  · intro h; simp [coordInit] at h

theorem coordInv_step {s s' : CoordSys} (inv : CoordInv s) (h : CoordStep s s') :
    CoordInv s' := by
  obtain ⟨tasks_le, cache_resolved, done_resolved, active_state, attached_zero,
    owner_active, owner_unique, task_owned⟩ := inv
  cases h with
  | startCached i r hc hit heq =>
    subst heq
    refine ⟨tasks_le, cache_resolved, ?_, ?_, ?_, ?_, ?_, task_owned⟩
    · intro j r' hj
      rcases getElem_set_cases hj with ⟨_, hval⟩ | ⟨_, hold⟩
      · injection hval with h1; subst h1; exact cache_resolved _ hit
      · exact done_resolved j r' hold
    · intro t ht
      obtain ⟨_, _, hcache, _, _⟩ := active_state t ht
      rw [hit] at hcache
      exact absurd hcache (by simp)
    · intro j t hj
      rcases hj with hj | hj
      · rcases getElem_set_cases hj with ⟨_, hval⟩ | ⟨_, hold⟩
        · exact CallerSt.noConfusion hval
        · exact attached_zero j t (Or.inl hold)
      · rcases getElem_set_cases hj with ⟨_, hval⟩ | ⟨_, hold⟩
        · exact CallerSt.noConfusion hval
        · exact attached_zero j t (Or.inr hold)
    · intro j t hj
      rcases getElem_set_cases hj with ⟨_, hval⟩ | ⟨_, hold⟩
      · exact CallerSt.noConfusion hval
      · exact owner_active j t hold
    · intro j k t₁ t₂ hj hk
      rcases getElem_set_cases hj with ⟨_, hval⟩ | ⟨_, hj'⟩
      · exact CallerSt.noConfusion hval
      · rcases getElem_set_cases hk with ⟨_, hval⟩ | ⟨_, hk'⟩
        · exact CallerSt.noConfusion hval
        · exact owner_unique j k t₁ t₂ hj' hk'
  | startWaiter i t hc hmiss hact heq =>
    subst heq
    refine ⟨tasks_le, cache_resolved, ?_, ?_, ?_, ?_, ?_, task_owned⟩
    · intro j r' hj
      rcases getElem_set_cases hj with ⟨_, hval⟩ | ⟨_, hold⟩
      · exact CallerSt.noConfusion hval
      · exact done_resolved j r' hold
    · intro t' ht'
      obtain ⟨ht0, hlen, hcache, j, hj⟩ := active_state t' ht'
      refine ⟨ht0, hlen, hcache, j, ?_⟩
      have hne : j ≠ i := by
        intro hji; subst hji
        rw [hc] at hj
        exact CallerSt.noConfusion (Option.some_inj.mp hj)
      rw [List.getElem?_set_ne (fun he => hne he.symm)]
      exact hj
    · intro j t' hj
      rcases hj with hj | hj
      · rcases getElem_set_cases hj with ⟨_, hval⟩ | ⟨_, hold⟩
        · exact CallerSt.noConfusion hval
        · exact attached_zero j t' (Or.inl hold)
      · rcases getElem_set_cases hj with ⟨_, hval⟩ | ⟨_, hold⟩
        · injection hval with h1
          subst h1
          obtain ⟨ht0, hlen, _, _⟩ := active_state t' hact
          exact ⟨ht0, hlen⟩
        · exact attached_zero j t' (Or.inr hold)
    · intro j t' hj
      rcases getElem_set_cases hj with ⟨_, hval⟩ | ⟨_, hold⟩
      · exact CallerSt.noConfusion hval
      · exact owner_active j t' hold
    · intro j k t₁ t₂ hj hk
      rcases getElem_set_cases hj with ⟨_, hval⟩ | ⟨_, hj'⟩
      · exact CallerSt.noConfusion hval
      · rcases getElem_set_cases hk with ⟨_, hval⟩ | ⟨_, hk'⟩
        · exact CallerSt.noConfusion hval
        · exact owner_unique j k t₁ t₂ hj' hk'
  | startOwner i hc hmiss hact heq =>
    subst heq
    have htasks : s.tasks = [] := by
      rcases Nat.lt_or_ge s.tasks.length 1 with h1 | h1
      · exact List.length_eq_zero.mp (Nat.lt_one_iff.mp h1)
      · have hlen1 : s.tasks.length = 1 := Nat.le_antisymm tasks_le h1
        rcases task_owned hlen1 with hactive | hcache
        · rw [hact] at hactive; exact absurd hactive (by simp)
        · exact absurd hmiss hcache
    refine ⟨?_, ?_, ?_, ?_, ?_, ?_, ?_, ?_⟩
    · simp [htasks]
    · intro r hr
      rw [hmiss] at hr
      exact Option.noConfusion hr
    · intro j r hj
      rcases getElem_set_cases hj with ⟨_, hval⟩ | ⟨_, hold⟩
      · exact CallerSt.noConfusion hval
      · have := done_resolved j r hold
        rw [htasks] at this
        exact List.noConfusion this
    · intro t' ht'
      injection ht' with h1
      subst h1
      refine ⟨by simp [htasks], by simp [htasks], hmiss, i, ?_⟩
      exact List.getElem?_set_eq_of_lt _ (lt_length_of_getElem hc)
    · intro j t' hj
      rcases hj with hj | hj
      · rcases getElem_set_cases hj with ⟨_, hval⟩ | ⟨_, hold⟩
        · injection hval with h1
          subst h1
          exact ⟨by simp [htasks], by simp [htasks]⟩
        · have := (attached_zero j t' (Or.inl hold)).2
          rw [htasks] at this
          exact absurd this (by simp)
      · rcases getElem_set_cases hj with ⟨_, hval⟩ | ⟨_, hold⟩
        · exact CallerSt.noConfusion hval
        · have := (attached_zero j t' (Or.inr hold)).2
          rw [htasks] at this
          exact absurd this (by simp)
    · intro j t' hj
      rcases getElem_set_cases hj with ⟨_, hval⟩ | ⟨_, hold⟩
      · injection hval with h1
        subst h1
        rfl
      · have := owner_active j t' hold
        rw [hact] at this
        exact Option.noConfusion this
    · intro j k t₁ t₂ hj hk
      rcases getElem_set_cases hj with ⟨hji, _⟩ | ⟨_, hj'⟩
      · rcases getElem_set_cases hk with ⟨hki, _⟩ | ⟨_, hk'⟩
        · rw [hji, hki]
        · have := owner_active k t₂ hk'
          rw [hact] at this
          exact Option.noConfusion this
      · have := owner_active j t₁ hj'
        rw [hact] at this
        exact Option.noConfusion this
    · intro _
      left
      simp [htasks]
  | resolveTask t r ht heq =>
    subst heq
    refine ⟨?_, ?_, ?_, ?_, ?_, owner_active, owner_unique, ?_⟩
    · simp only [List.length_set]
      exact tasks_le
    · intro r' hr'
      have := cache_resolved r' hr'
      rw [this] at ht
      rcases t with _ | t <;> simp at ht
    · intro j r' hj
      have := done_resolved j r' hj
      rw [this] at ht
      rcases t with _ | t <;> simp at ht
    · intro t' ht'
      obtain ⟨ht0, hlen, hcache, j, hj⟩ := active_state t' ht'
      exact ⟨ht0, by simp [List.length_set, hlen], hcache, j, hj⟩
    · intro j t' hj
      obtain ⟨ht0, hlen⟩ := attached_zero j t' hj
      exact ⟨ht0, by simp [List.length_set, hlen]⟩
    · intro hlen
      rw [List.length_set] at hlen
      exact task_owned hlen
  | ownerResume i t r hc ht heq =>
    subst heq
    obtain ⟨ht0, hlen1⟩ := attached_zero i t (Or.inl hc)
    subst ht0
    obtain ⟨x, hx⟩ := List.length_eq_one.mp hlen1
    have htasks : s.tasks = [.resolved r] := by
      rw [hx] at ht ⊢
      simp at ht
      rw [ht]
    refine ⟨tasks_le, ?_, ?_, ?_, ?_, ?_, ?_, ?_⟩
    · intro r' hr'
      injection hr' with h1
      subst h1
      exact htasks
    · intro j r' hj
      rcases getElem_set_cases hj with ⟨_, hval⟩ | ⟨_, hold⟩
      · injection hval with h1; subst h1; exact htasks
      · exact done_resolved j r' hold
    · intro t' ht'
      exact Option.noConfusion ht'
    · intro j t' hj
      rcases hj with hj | hj
      · rcases getElem_set_cases hj with ⟨_, hval⟩ | ⟨_, hold⟩
        · exact CallerSt.noConfusion hval
        · exact attached_zero j t' (Or.inl hold)
      · rcases getElem_set_cases hj with ⟨_, hval⟩ | ⟨_, hold⟩
        · exact CallerSt.noConfusion hval
        · exact attached_zero j t' (Or.inr hold)
    · intro j t' hj
      rcases getElem_set_cases hj with ⟨_, hval⟩ | ⟨hne, hold⟩
      · exact CallerSt.noConfusion hval
      · exact absurd (owner_unique j i t' 0 hold hc) hne
    · intro j k t₁ t₂ hj hk
      rcases getElem_set_cases hj with ⟨_, hval⟩ | ⟨_, hj'⟩
      · exact CallerSt.noConfusion hval
      · rcases getElem_set_cases hk with ⟨_, hval⟩ | ⟨_, hk'⟩
        · exact CallerSt.noConfusion hval
        · exact owner_unique j k t₁ t₂ hj' hk'
    · intro _
      right
      simp
  | waiterResume i t r hc ht heq =>
    subst heq
    obtain ⟨ht0, hlen1⟩ := attached_zero i t (Or.inr hc)
    subst ht0
    obtain ⟨x, hx⟩ := List.length_eq_one.mp hlen1
    have htasks : s.tasks = [.resolved r] := by
      rw [hx] at ht ⊢
      simp at ht
      rw [ht]
    refine ⟨tasks_le, cache_resolved, ?_, ?_, ?_, ?_, ?_, task_owned⟩
    · intro j r' hj
      rcases getElem_set_cases hj with ⟨_, hval⟩ | ⟨_, hold⟩
      · injection hval with h1; subst h1; exact htasks
      · exact done_resolved j r' hold
    · intro t' ht'
      obtain ⟨ht0', hlen, hcache, j, hj⟩ := active_state t' ht'
      refine ⟨ht0', hlen, hcache, j, ?_⟩
      have hne : j ≠ i := by
        intro hji; subst hji
        rw [hc] at hj
        exact CallerSt.noConfusion (Option.some_inj.mp hj)
      rw [List.getElem?_set_ne (fun he => hne he.symm)]
      exact hj
    · intro j t' hj
      rcases hj with hj | hj
      · rcases getElem_set_cases hj with ⟨_, hval⟩ | ⟨_, hold⟩
        · exact CallerSt.noConfusion hval
        · exact attached_zero j t' (Or.inl hold)
      · rcases getElem_set_cases hj with ⟨_, hval⟩ | ⟨_, hold⟩
        · exact CallerSt.noConfusion hval
        · exact attached_zero j t' (Or.inr hold)
    · intro j t' hj
      rcases getElem_set_cases hj with ⟨_, hval⟩ | ⟨_, hold⟩
      · exact CallerSt.noConfusion hval
      · exact owner_active j t' hold
    · intro j k t₁ t₂ hj hk
      rcases getElem_set_cases hj with ⟨_, hval⟩ | ⟨_, hj'⟩
      · exact CallerSt.noConfusion hval
      · rcases getElem_set_cases hk with ⟨_, hval⟩ | ⟨_, hk'⟩
        · exact CallerSt.noConfusion hval
        · exact owner_unique j k t₁ t₂ hj' hk'

theorem coordInv_reach {n : Nat} {s : CoordSys} (h : CoordReach n s) :
    CoordInv s := by
  induction h with
  | refl => exact coordInv_init n
  | tail _ hstep ih => exact coordInv_step ih hstep

theorem coordStep_callers_length {s s' : CoordSys} (h : CoordStep s s') :
    s'.callers.length = s.callers.length := by
  cases h <;> subst_vars <;> simp [List.length_set]

theorem coordReach_callers_length {n : Nat} {s : CoordSys}
    (h : CoordReach n s) : s.callers.length = n := by
  induction h with
  | refl => simp [coordInit]
  | tail _ hstep ih => rw [coordStep_callers_length hstep, ih]

/-! ## Provider clients (`base.py`, `claude_service.py`, `openai_service.py`,
`gemini_service.py`)

Each `generate_response` is embedded as a function of the API key, the
caller's context, and the upstream HTTP outcome (given as a parameter,
since the network is external).  Each returns the normalized response dict
*and* a flag recording whether the upstream HTTP request was issued —
`false` means the client returned before any network traffic.
Temperatures are embedded as rationals (`0.7` is `7/10`); only their
identity matters, no arithmetic is performed on them. -/

/-- One message of `conversation_history`. -/
structure Msg where
  role : String
  content : String
deriving DecidableEq

/-- The `external_knowledge` dict fields the clients consume (`status`,
`formatted_content`). -/
structure ExtKnow where
  status : String
  formatted_content : String
deriving DecidableEq

/-- The `web_search` context dict (`enabled`, `results`); result entries
abstracted as strings. -/
structure WebSearchCtx where
  enabled : Bool
  results : List String
deriving DecidableEq

/-- The caller-supplied `context` dict, with `none` for an absent key.
Covers every key read by `prepare_context` or the clients. -/
structure Ctx where
  conversation_history : Option (List Msg) := none
  system_prompt : Option String := none
  temperature : Option Rat := none
  max_tokens : Option Int := none
  external_knowledge : Option ExtKnow := none
  web_search : Option WebSearchCtx := none
deriving DecidableEq

/-- Python's `if not context:` — true for `None` and for the empty dict. -/
def Ctx.isEmpty (c : Ctx) : Bool :=
  c.conversation_history.isNone && c.system_prompt.isNone &&
  c.temperature.isNone && c.max_tokens.isNone &&
  c.external_knowledge.isNone && c.web_search.isNone

/-- The dict `prepare_context` returns (`base.py` lines 31-50).  For an
empty/absent input context it is the empty dict (all fields `none`);
otherwise the four base keys are always present and `has_web_search` is
set.  Note that `prepare_context` drops any `web_search` key of the input
context: the returned dict never contains one. -/
structure PreparedCtx where
  conversation_history : Option (List Msg) := none
  system_prompt : Option String := none
  temperature : Option Rat := none
  max_tokens : Option Int := none
  external_knowledge : Option ExtKnow := none
  has_web_search : Option Bool := none
deriving DecidableEq

/-- `BaseAIService.prepare_context` (`base.py` lines 31-50).
`default_max_tokens` stands for `self.max_tokens`.  The temperature
default for a non-empty context is `context.get('temperature', 0.7)`. -/
def prepare_context (default_max_tokens : Int) (context : Option Ctx) :
    PreparedCtx :=
  match context with
  | none => {}
  | some c =>
    if c.isEmpty then {}
    else
      let ek : Option ExtKnow :=
        match c.external_knowledge with
        | some k => if k.status = "success" then some k else none
        | none => none
      { conversation_history := some (c.conversation_history.getD [])
        system_prompt := some (c.system_prompt.getD "")
        temperature := some (c.temperature.getD (7/10))
        max_tokens := some (c.max_tokens.getD default_max_tokens)
        external_knowledge := ek
        has_web_search := some ek.isSome }

/-- A normalized provider response dict.  `service` is `none` for the
Gemini dicts, which carry no top-level `'service'` key (Gemini instead
stores `'service': 'gemini'` inside `metadata`, which no claim reads). -/
structure GenResponse where
  success : Bool
  error : Option String
  service : Option String
  content : Option String
  metadata : Metadata
deriving DecidableEq

/-- `BaseAIService.format_error_response` (`base.py` lines 52-60):
`success=False`, the stringified error, `content=None`, empty metadata. -/
def format_error_response (service_name : String) (error : String) :
    GenResponse :=
  { success := false, error := some error, service := some service_name
    content := none, metadata := {} }

/-- `BaseAIService.format_success_response` (`base.py` lines 62-69). -/
def format_success_response (service_name : String) (content : String)
    (metadata : Metadata) : GenResponse :=
  { success := true, error := none, service := some service_name
    content := some content, metadata := metadata }

/-- `ClaudeService.validate_api_key` (`claude_service.py` lines 23-24):
`self.api_key and self.api_key.startswith('sk-ant-')`. -/
def claude_validate_api_key (api_key : String) : Bool :=
  api_key != "" && api_key.startsWith "sk-ant-"

/-- `OpenAIService.validate_api_key` (`openai_service.py` lines 25-26). -/
def openai_validate_api_key (api_key : String) : Bool :=
  api_key != "" && api_key.startsWith "sk-"

/-- `GeminiService.validate_api_key` (`gemini_service.py` lines 29-30):
`self.api_key and len(self.api_key) > 10`.  (The class later shadows this
with an async network-probing version at lines 147-161; neither is invoked
by `GeminiService.generate_response`.) -/
def gemini_validate_api_key (api_key : String) : Bool :=
  api_key != "" && api_key.length > 10

/-- Upstream outcome of the Claude HTTP call: a non-200 response (with the
extracted `error.message`, defaulted upstream to `'Unknown error'`), a 200
response (with the extracted first-block text and `usage` dict), or an
exception during the request. -/
inductive ClaudeUpstream
  | httpError (message : String)
  | ok (text : String) (usage : List (String × Int))
  | exn (message : String)
deriving DecidableEq

/-- `ClaudeService.generate_response` (`claude_service.py` lines 26-69):
the credential gate at lines 27-28 runs before any network traffic; all
other paths issue the HTTP request.  Second component: whether the
request was issued. -/
def claude_generate_response (api_key : String) (context : Option Ctx)
    (upstream : ClaudeUpstream) : GenResponse × Bool :=
  if ¬ claude_validate_api_key api_key then
    (format_error_response "Claude" "Invalid Claude API key", false)
  else
    match upstream with
    | .httpError msg =>
        (format_error_response "Claude" ("Claude API error: " ++ msg), true)
    | .ok text usage =>
        (format_success_response "Claude" text ⟨some usage⟩, true)
    | .exn msg => (format_error_response "Claude" msg, true)

/-- Upstream outcome of the OpenAI HTTP call; `okNoChoices` is a 200
response with an empty `choices` list (lines 113-115). -/
inductive OpenAIUpstream
  | httpError (message : String)
  | okNoChoices
  | ok (content : String) (usage : List (String × Int))
  | exn (message : String)
deriving DecidableEq

/-- `OpenAIService.generate_response` via `_make_request`
(`openai_service.py` lines 28-30 and 73-137), in the plain-chat case
(`functions=None`).  The credential gate at lines 80-81 runs before any
network traffic. -/
def openai_generate_response (api_key : String) (context : Option Ctx)
    (upstream : OpenAIUpstream) : GenResponse × Bool :=
  if ¬ openai_validate_api_key api_key then
    (format_error_response "OpenAI" "Invalid OpenAI API key", false)
  else
    match upstream with
    | .httpError msg =>
        (format_error_response "OpenAI" ("OpenAI API error: " ++ msg), true)
    | .okNoChoices =>
        (format_error_response "OpenAI" "No response choices returned", true)
    | .ok content usage =>
        (format_success_response "OpenAI" content ⟨some usage⟩, true)
    | .exn msg => (format_error_response "OpenAI" msg, true)

/-- Upstream outcome of the Gemini HTTP call: non-200 with body text, a
200 response that parses (`candidates[0].content.parts[0].text` present,
with `usageMetadata`), a 200 response that fails to parse, an
`aiohttp.ClientError`, or any other exception. -/
inductive GeminiUpstream
  | httpError (status : Nat) (text : String)
  | okParsed (text : String) (usageMetadata : List (String × Int))
  | okUnparsable (parse_error : String)
  | netError (message : String)
  | exn (message : String)
deriving DecidableEq

/-- `GeminiService.generate_response` (`gemini_service.py` lines 32-145).
Unlike the Claude/OpenAI clients it has no credential gate: every path,
whatever the key, issues the HTTP request (the API key is merely attached
as the `key` query parameter). -/
def gemini_generate_response (api_key : String) (context : Option Ctx)
    (upstream : GeminiUpstream) : GenResponse × Bool :=
  match upstream with
  | .okParsed text usage =>
      ({ success := true, error := none, service := none
         content := some text.trim, metadata := ⟨some usage⟩ }, true)
  | .okUnparsable e =>
      ({ success := false
         error := some ("Failed to parse Gemini response: " ++ e)
         service := none, content := none, metadata := {} }, true)
  | .httpError status text =>
      ({ success := false
         error := some ("Gemini API error " ++ toString status ++ ": " ++ text)
         service := none, content := none, metadata := {} }, true)
  | .netError msg =>
      ({ success := false, error := some ("Network error: " ++ msg)
         service := none, content := none, metadata := {} }, true)
  | .exn msg =>
      ({ success := false, error := some ("Unexpected error: " ++ msg)
         service := none, content := none, metadata := {} }, true)

/-- The request-payload fields shared by the Claude payload
(`claude_service.py` lines 41-46) and the OpenAI payload
(`openai_service.py` lines 92-97): both read
`prepared_context.get('max_tokens', self.max_tokens)` and
`prepared_context.get('temperature', 0)`. -/
structure GenPayload where
  model : String
  max_tokens : Int
  temperature : Rat
deriving DecidableEq

/-- The Claude payload construction (`claude_service.py` lines 38-46). -/
def claude_build_payload (model : String) (default_max_tokens : Int)
    (context : Option Ctx) : GenPayload :=
  let prepared_context := prepare_context default_max_tokens context
  { model := model
    max_tokens := prepared_context.max_tokens.getD default_max_tokens
    temperature := prepared_context.temperature.getD 0 }

/-- The OpenAI payload construction (`openai_service.py` lines 89-97). -/
def openai_build_payload (model : String) (default_max_tokens : Int)
    (context : Option Ctx) : GenPayload :=
  let prepared_context := prepare_context default_max_tokens context
  { model := model
    max_tokens := prepared_context.max_tokens.getD default_max_tokens
    temperature := prepared_context.temperature.getD 0 }

/-- Gemini's `generationConfig` (`gemini_service.py` lines 44-46 and
67-72): `temperature`, `maxOutputTokens`, and the constants `topP=0.8`,
`topK=10`. -/
structure GeminiGenerationConfig where
  temperature : Rat
  maxOutputTokens : Int
  topP : Rat
  topK : Int
deriving DecidableEq

/-- The Gemini generation-config construction (lines 44-46, 67-72). -/
def gemini_generation_config (default_max_tokens : Int)
    (context : Option Ctx) : GeminiGenerationConfig :=
  let prepared_context := prepare_context default_max_tokens context
  { temperature := prepared_context.temperature.getD 0
    maxOutputTokens := prepared_context.max_tokens.getD default_max_tokens
    topP := 4/5
    topK := 10 }

/-! ## Orchestration (`api/v1/test_ai.py`)

`process_claude` / `process_openai` / `process_gemini` (lines 63-166,
169-272, 275-378) are verbatim-identical up to the service label, the
token-extractor service name, the credential, and the model; they are
embedded as one parametrized function plus three thin wrappers.  The
generation calls are inputs (their results are `GenResponse` values);
database bookkeeping (`AIResponse.objects.create`) is external.  `exc`
models an exception escaping the function's outer `try` (e.g. from the
service factory) and reaching the `except` fallback at lines 159-166. -/

/-- Python `str.split()` (split on whitespace, dropping empty pieces). -/
def pySplit (s : String) : List String :=
  (s.split (fun c => c.isWhitespace)).filter (fun w => w != "")

/-- The dict returned by `generate_synopsis_with_same_ai` (`test_ai.py`
lines 28-60): `synopsis` text, the synopsis sub-call's `metadata`, and a
`success` flag. -/
structure SynopsisOutcome where
  synopsis : String
  metadata : Metadata
  success : Bool
deriving DecidableEq

/-- `generate_synopsis_with_same_ai` (`test_ai.py` lines 28-60), as a
function of the synopsis sub-call's response dict `result`.  `exc` models
an exception inside the function's own `try` (e.g. from the service
factory), which degrades to the bare fallback string (lines 58-60).  On
a successful sub-call the synopsis is clipped to 45 words plus `'...'`
when it exceeds 50 words (lines 50-53); on a failed sub-call it degrades
to `'Synopsis generation failed: <error>'` (line 56).  (Successful
embedded responses always carry string content, so
`result.get('content', 'Unable to generate synopsis')` is modelled with
that same default.) -/
def generate_synopsis_with_same_ai (result : GenResponse)
    (exc : Option String) : SynopsisOutcome :=
  match exc with
  | some _ => ⟨"Synopsis generation failed", {}, false⟩
  | none =>
    if result.success then
      let synopsis := result.content.getD "Unable to generate synopsis"
      let words := pySplit (pyStrip synopsis)
      let synopsis :=
        if words.length > 50 then String.intercalate " " (words.take 45) ++ "..."
        else synopsis
      ⟨synopsis, result.metadata, true⟩
    else
      ⟨"Synopsis generation failed: " ++ (result.error.getD "Unknown error"),
       {}, false⟩

/-- One entry of the aggregated `results` list (the dict built at
`test_ai.py` lines 148-157, or the exception fallback at lines 160-166).
The accounting fields are `Option` because the fallback dict omits them
entirely. -/
structure ProviderResult where
  service : String
  success : Bool
  content : Option String
  synopsis : String
  input_tokens : Option Int
  output_tokens : Option Int
  tokens_used : Option Int
  error : Option String
deriving DecidableEq

/-- Python truthiness of the `content` value (`if ... and
claude_response['content']:`): present and non-empty. -/
def truthy_content (c : Option String) : Bool :=
  match c with
  | some s => s != ""
  | none => false

/-- The shared body of `process_claude` / `process_openai` /
`process_gemini` (`test_ai.py` lines 63-166 and the two verbatim copies):
run the main generation (its response `mainResponse` is an input), run the
synopsis sub-call only if the main response succeeded with truthy content
(lines 93-102), extract tokens from the main response's metadata (lines
104-109), and assemble the result dict (lines 148-157).  `exc = some e`
is an exception escaping the outer `try`, producing the fallback dict of
lines 159-166, which has no token fields. -/
def process_service (label : String) (tok_service : String)
    (mainResponse : GenResponse) (synResponse : GenResponse)
    (synExc : Option String) (exc : Option String) : ProviderResult :=
  match exc with
  | some e =>
    { service := label, success := false, content := none
      synopsis := "Synopsis generation failed"
      input_tokens := none, output_tokens := none, tokens_used := none
      error := some e }
  | none =>
    let synopsis :=
      if mainResponse.success && truthy_content mainResponse.content then
        (generate_synopsis_with_same_ai synResponse synExc).synopsis
      else "No synopsis available"
    let tok := extract_tokens mainResponse.metadata tok_service
    let total := calculate_total_tokens tok.1 tok.2
    { service := label, success := mainResponse.success
      content := mainResponse.content, synopsis := synopsis
      input_tokens := some tok.1, output_tokens := some tok.2
      tokens_used := some total, error := mainResponse.error }

/-- `process_claude` (`test_ai.py` lines 63-166). -/
def process_claude (mainResponse synResponse : GenResponse)
    (synExc exc : Option String) : ProviderResult :=
  process_service "Claude" "claude" mainResponse synResponse synExc exc

/-- `process_openai` (`test_ai.py` lines 169-272). -/
def process_openai (mainResponse synResponse : GenResponse)
    (synExc exc : Option String) : ProviderResult :=
  process_service "OpenAI" "openai" mainResponse synResponse synExc exc

/-- `process_gemini` (`test_ai.py` lines 275-378). -/
def process_gemini (mainResponse synResponse : GenResponse)
    (synExc exc : Option String) : ProviderResult :=
  process_service "Gemini" "gemini" mainResponse synResponse synExc exc

/-- The default of `data.get('services', ['claude', 'openai', 'gemini'])`
(`test_ai.py` line 517). -/
def default_services : List String := ["claude", "openai", "gemini"]

/-- `services = data.get('services', [...])` (line 517): the default
applies only when the request body has no `services` key at all. -/
def services_requested (services : Option (List String)) : List String :=
  services.getD default_services

/-- The fan-out task list of `process_all_services_async` (`test_ai.py`
lines 451-461): a provider is launched iff its identifier is in
`services` *and* its API key is configured (truthy).  Entries of
`services` that are not one of the three known identifiers are never
consulted. -/
def build_service_tasks (services : List String)
    (claude_key openai_key gemini_key : String) : List String :=
  (if services.contains "claude" && claude_key != "" then ["claude"] else []) ++
  (if services.contains "openai" && openai_key != "" then ["openai"] else []) ++
  (if services.contains "gemini" && gemini_key != "" then ["gemini"] else [])

/-! ## Shared helper lemmas -/

theorem append_ne_empty_left (a b : String) (h : a ≠ "") : a ++ b ≠ "" := by
  intro he
  apply h
  have hd := String.ext_iff.mp he
  rw [String.data_append] at hd
  exact String.ext (List.append_eq_nil.mp hd).1

theorem contains_append_single (l : List String) (x y : String) (h : y ≠ x) :
    (l ++ [x]).contains y = l.contains y := by
  induction l with
  | nil => simp [List.contains, h]
  | cons a l ih => simp_all [List.contains]

/-- A hit in the search cache returns the stored entry unchanged, with no
search invocation. -/
theorem search_for_query_body_hit (env : CoordEnv) (md5hex : String → String)
    (q : String) (user : Option String) (d : String) (p r : SearchOutcome)
    (ttl : Nat)
    (hhit : env.cache (generate_cache_key md5hex q d) = some (r, ttl)) :
    search_for_query_body env md5hex q user d p = ⟨r, env, false⟩ := by
  simp [search_for_query_body, hhit]

theorem search_for_query_body_miss_result (env : CoordEnv)
    (md5hex : String → String) (q : String) (user : Option String)
    (d : String) (p : SearchOutcome)
    (hmiss : env.cache (generate_cache_key md5hex q d) = none) :
    (search_for_query_body env md5hex q user d p).result = p := by
  cases user <;> simp [search_for_query_body, hmiss]

theorem search_for_query_body_miss_invoked (env : CoordEnv)
    (md5hex : String → String) (q : String) (user : Option String)
    (d : String) (p : SearchOutcome)
    (hmiss : env.cache (generate_cache_key md5hex q d) = none) :
    (search_for_query_body env md5hex q user d p).searchInvoked = true := by
  cases user <;> simp [search_for_query_body, hmiss]

theorem search_for_query_body_miss_cache (env : CoordEnv)
    (md5hex : String → String) (q : String) (user : Option String)
    (d : String) (p : SearchOutcome)
    (hmiss : env.cache (generate_cache_key md5hex q d) = none) :
    (search_for_query_body env md5hex q user d p).env.cache
      (generate_cache_key md5hex q d) = some (p, CACHE_TTL) := by
  cases user <;> simp [search_for_query_body, hmiss]

/-- When the caller has no user, or a user within budget, the rate-limit
gate passes and `search_for_query` proceeds to its body. -/
theorem search_for_query_one_pass (env : CoordEnv) (md5hex : String → String)
    (q : String) (user : Option String) (loc : Option Location) (d : String)
    (p : SearchOutcome)
    (hrate : ∀ u, user = some u → check_rate_limit env u = true) :
    search_for_query_one env md5hex q user loc d p =
      search_for_query_body env md5hex q user d p := by
  cases user with
  | none => rfl
  | some u => simp [search_for_query_one, hrate u rfl]

/-! ## Claim theorems -/

/-- A metadata dict with no `usage` key yields `(0, 0)` for every service
name. -/
theorem extract_tokens_empty (s : String) : extract_tokens {} s = (0, 0) := by
  by_cases h1 : pyLower s = "claude"
  · simp [extract_tokens, h1, dget]
  · by_cases h2 : pyLower s = "openai"
    · simp [extract_tokens, h1, h2, dget]
    · by_cases h3 : pyLower s = "gemini"
      · simp [extract_tokens, h1, h2, h3, dget]
      · simp [extract_tokens, h1, h2, h3]

/-- C4: `extract_tokens` is a pure, total map from provider name and raw
usage metadata to token counts: for `'claude'` it returns the `usage`
dict's `input_tokens`/`output_tokens`; for `'openai'` its
`prompt_tokens`/`completion_tokens`; for `'gemini'` its
`promptTokenCount`/`candidatesTokenCount` with a snake_case fallback to
`prompt_token_count`/`candidates_token_count`; missing fields (including a
missing `usage` dict) default to 0; any unknown provider id yields
`(0, 0)` rather than an error; and total tokens equals input plus output
(`calculate_total_tokens`). -/
theorem extract_tokens_spec :
    (∀ u : List (String × Int), extract_tokens ⟨some u⟩ "claude" =
        (dget u "input_tokens" 0, dget u "output_tokens" 0)) ∧
    (∀ u : List (String × Int), extract_tokens ⟨some u⟩ "openai" =
        (dget u "prompt_tokens" 0, dget u "completion_tokens" 0)) ∧
    (∀ u : List (String × Int), extract_tokens ⟨some u⟩ "gemini" =
        (dget u "promptTokenCount" (dget u "prompt_token_count" 0),
         dget u "candidatesTokenCount" (dget u "candidates_token_count" 0))) ∧
    (∀ s : String, extract_tokens {} s = (0, 0)) ∧
    (∀ (m : Metadata) (s : String),
        pyLower s ∉ ["claude", "openai", "gemini"] →
          extract_tokens m s = (0, 0)) ∧
    (∀ i o : Int, calculate_total_tokens i o = i + o) := by
  refine ⟨fun u => rfl, fun u => rfl, fun u => rfl, ?_, ?_, fun i o => rfl⟩
  · intro s
    by_cases h1 : pyLower s = "claude"
    · simp [extract_tokens, h1, dget]
    · by_cases h2 : pyLower s = "openai"
      · simp [extract_tokens, h1, h2, dget]
      · by_cases h3 : pyLower s = "gemini"
        · simp [extract_tokens, h1, h2, h3, dget]
        · simp [extract_tokens, h1, h2, h3]
  · intro m s hs
    simp only [List.mem_cons, List.not_mem_nil, or_false, not_or] at hs
    obtain ⟨h1, h2, h3⟩ := hs
    simp [extract_tokens, h1, h2, h3]

/-- Witness for C4 at concrete inputs: a Claude usage dict, and the
unknown provider id `'mistral'`. -/
theorem extract_tokens_spec_witness :
    extract_tokens ⟨some [("input_tokens", 100), ("output_tokens", 50)]⟩
        "claude" = (100, 50) ∧
    pyLower "mistral" ∉ ["claude", "openai", "gemini"] ∧
    extract_tokens ⟨some [("input_tokens", 100)]⟩ "mistral" = (0, 0) ∧
    calculate_total_tokens 100 50 = 150 := by
  refine ⟨?_, by decide, extract_tokens_spec.2.2.2.2.1 _ "mistral" (by decide), ?_⟩
  · rw [extract_tokens_spec.1]; decide
  · rw [extract_tokens_spec.2.2.2.2.2]; decide

/-- C2 counterexample: the claim asserts that calls with identical query
text but different user locations (or different dates) compute different
cache keys.  The location half is false: `_generate_cache_key` hashes only
the normalized query text and the date — `user_location` is not part of
the key — so two calls for `"weather"` from New York and from Paris on the
same date compute the *same* key, whatever the digest function. -/
theorem cache_key_location_counterexample :
    ¬ ((∀ (md5hex : String → String) (q d : String)
          (loc₁ loc₂ : Option Location), loc₁ ≠ loc₂ →
            search_cache_key md5hex q loc₁ d ≠ search_cache_key md5hex q loc₂ d) ∧
       (∀ (md5hex : String → String) (q d₁ d₂ : String) (loc : Option Location),
          d₁ ≠ d₂ →
            search_cache_key md5hex q loc d₁ ≠ search_cache_key md5hex q loc d₂)) := by
  intro h
  exact h.1 (fun s => s) "weather" "2026-10-12"
    (some ⟨"New York", "NY", "US"⟩) (some ⟨"Paris", "Ile-de-France", "FR"⟩)
    (by decide) rfl

/-- C2 (amended): the cache key is a stable hash of the lower-cased,
stripped query text and the current (local) date only; the user location
is not part of the key, so calls with identical query text and date always
share a key regardless of location, and queries equal up to
lower-casing/stripping share a key. -/
theorem cache_key_spec :
    (∀ (md5hex : String → String) (q d : String) (loc₁ loc₂ : Option Location),
        search_cache_key md5hex q loc₁ d = search_cache_key md5hex q loc₂ d) ∧
    (∀ (md5hex : String → String) (q₁ q₂ d : String),
        pyStrip (pyLower q₁) = pyStrip (pyLower q₂) →
          generate_cache_key md5hex q₁ d = generate_cache_key md5hex q₂ d) := by
  refine ⟨fun _ _ _ _ _ => rfl, ?_⟩
  intro md5hex q₁ q₂ d h
  simp [generate_cache_key, h]

/-- Witness for C2 (amended) at concrete inputs. -/
theorem cache_key_spec_witness :
    search_cache_key (fun s => s) "weather"
        (some ⟨"New York", "NY", "US"⟩) "2026-10-12" =
      search_cache_key (fun s => s) "weather"
        (some ⟨"Paris", "Ile-de-France", "FR"⟩) "2026-10-12" ∧
    generate_cache_key (fun s => s) "  Weather " "2026-10-12" =
      generate_cache_key (fun s => s) "weather" "2026-10-12" :=
  ⟨cache_key_spec.1 _ _ _ _ _, cache_key_spec.2 _ _ _ _ (by decide)⟩

/-- C3: a `search_for_query` call with a present user whose hourly counter
has reached the budget (`MAX_SEARCHES_PER_USER_PER_HOUR = 20`) returns the
rate-limit error dict immediately, invokes no search, leaves the whole
cache environment — in particular the user's counter — unchanged. -/
theorem rate_limit_rejects_without_search (env : CoordEnv)
    (md5hex : String → String) (q u : String) (loc : Option Location)
    (d : String) (perform : SearchOutcome)
    (h : MAX_SEARCHES_PER_USER_PER_HOUR ≤ env.rate u) :
    search_for_query_one env md5hex q (some u) loc d perform =
      ⟨rate_limited_result, env, false⟩ ∧
    rate_limited_result.success = false ∧
    rate_limited_result.error = some "Rate limit exceeded. Please try again later." ∧
    (search_for_query_one env md5hex q (some u) loc d perform).env.rate u =
      env.rate u := by
  have hnot : ¬ env.rate u < MAX_SEARCHES_PER_USER_PER_HOUR := Nat.not_lt.mpr h
  have hc : check_rate_limit env u = false := by
    simp [check_rate_limit, hnot]
  have hmain : search_for_query_one env md5hex q (some u) loc d perform =
      ⟨rate_limited_result, env, false⟩ := by
    simp [search_for_query_one, hc]
  exact ⟨hmain, rfl, rfl, by rw [hmain]⟩

/-- Witness for C3: a user whose counter is exactly at the 20-call budget. -/
theorem rate_limit_rejects_without_search_witness :
    search_for_query_one ⟨fun _ => none, fun _ => 20⟩ (fun s => s) "q"
        (some "u") none "2026-10-12" ⟨true, none, [], [], 1⟩ =
      ⟨rate_limited_result, ⟨fun _ => none, fun _ => 20⟩, false⟩ ∧
    (search_for_query_one ⟨fun _ => none, fun _ => 20⟩ (fun s => s) "q"
        (some "u") none "2026-10-12" ⟨true, none, [], [], 1⟩).env.rate "u" = 20 :=
  have h := rate_limit_rejects_without_search ⟨fun _ => none, fun _ => 20⟩
    (fun s => s) "q" "u" none "2026-10-12" ⟨true, none, [], [], 1⟩ (by decide)
  ⟨h.1, h.2.2.2⟩

/-- C10: a `search_for_query` call that passes the rate gate and misses
the cache performs the underlying search and stores the resulting dict —
success or failure alike — in the cache under the fixed 15-minute TTL;
any later call computing the same cache key (i.e. any call that is not
rejected by the rate limiter first) returns the stored result without
invoking the search client again. -/
theorem failed_search_cached (env : CoordEnv) (md5hex : String → String)
    (q : String) (user user₂ : Option String) (loc loc₂ : Option Location)
    (d : String) (perform perform₂ : SearchOutcome)
    (hmiss : env.cache (generate_cache_key md5hex q d) = none)
    (hrate : ∀ u, user = some u → check_rate_limit env u = true)
    (hrate₂ : ∀ u, user₂ = some u →
        check_rate_limit (search_for_query_one env md5hex q user loc d
          perform).env u = true) :
    (search_for_query_one env md5hex q user loc d perform).searchInvoked = true ∧
    (search_for_query_one env md5hex q user loc d perform).result = perform ∧
    (search_for_query_one env md5hex q user loc d perform).env.cache
        (generate_cache_key md5hex q d) = some (perform, CACHE_TTL) ∧
    CACHE_TTL = 15 * 60 ∧
    (search_for_query_one (search_for_query_one env md5hex q user loc d
        perform).env md5hex q user₂ loc₂ d perform₂).result = perform ∧
    (search_for_query_one (search_for_query_one env md5hex q user loc d
        perform).env md5hex q user₂ loc₂ d perform₂).searchInvoked = false := by
  have h1 := search_for_query_one_pass env md5hex q user loc d perform hrate
  have hcache : (search_for_query_one env md5hex q user loc d perform).env.cache
      (generate_cache_key md5hex q d) = some (perform, CACHE_TTL) := by
    rw [h1]
    exact search_for_query_body_miss_cache env md5hex q user d perform hmiss
  have h2 := search_for_query_one_pass
    (search_for_query_one env md5hex q user loc d perform).env md5hex q user₂
    loc₂ d perform₂ hrate₂
  have hhit := search_for_query_body_hit
    (search_for_query_one env md5hex q user loc d perform).env md5hex q user₂
    d perform₂ perform CACHE_TTL hcache
  refine ⟨?_, ?_, hcache, rfl, ?_, ?_⟩
  · rw [h1]
    exact search_for_query_body_miss_invoked env md5hex q user d perform hmiss
  · rw [h1]
    exact search_for_query_body_miss_result env md5hex q user d perform hmiss
  · rw [h2, hhit]
  · rw [h2, hhit]

/-- Witness for C10: a failed search result (success=false) is cached and
served to the next call. -/
theorem failed_search_cached_witness :
    (search_for_query_one ⟨fun _ => none, fun _ => 0⟩ (fun s => s) "q" none
        none "2026-10-12" ⟨false, some "No search results found", [], [], 2⟩
      ).searchInvoked = true ∧
    (search_for_query_one ⟨fun _ => none, fun _ => 0⟩ (fun s => s) "q" none
        none "2026-10-12" ⟨false, some "No search results found", [], [], 2⟩
      ).env.cache (generate_cache_key (fun s => s) "q" "2026-10-12") =
      some (⟨false, some "No search results found", [], [], 2⟩, CACHE_TTL) ∧
    (search_for_query_one
        (search_for_query_one ⟨fun _ => none, fun _ => 0⟩ (fun s => s) "q"
          none none "2026-10-12"
          ⟨false, some "No search results found", [], [], 2⟩).env
        (fun s => s) "q" none none "2026-10-12"
        ⟨true, none, [], [], 1⟩).result =
      ⟨false, some "No search results found", [], [], 2⟩ ∧
    (search_for_query_one
        (search_for_query_one ⟨fun _ => none, fun _ => 0⟩ (fun s => s) "q"
          none none "2026-10-12"
          ⟨false, some "No search results found", [], [], 2⟩).env
        (fun s => s) "q" none none "2026-10-12"
        ⟨true, none, [], [], 1⟩).searchInvoked = false :=
  have h := failed_search_cached ⟨fun _ => none, fun _ => 0⟩ (fun s => s) "q"
    none none none none "2026-10-12"
    ⟨false, some "No search results found", [], [], 2⟩ ⟨true, none, [], [], 1⟩
    rfl (fun u hu => Option.noConfusion hu) (fun u hu => Option.noConfusion hu)
  ⟨h.1, h.2.2.1, h.2.2.2.2.1, h.2.2.2.2.2⟩

/-- C5 counterexample: the Gemini client never validates its credential —
a Generate call with an invalid (empty, hence format-invalid) credential
still issues the HTTP request instead of failing fast. -/
theorem gemini_no_credential_gate :
    gemini_validate_api_key "" = false ∧
    (gemini_generate_response "" none (.netError "connection refused")).2 = true :=
  ⟨rfl, rfl⟩

/-- C5 (amended): the Claude and OpenAI clients validate their credential
format before any network call, returning the typed invalid-credential
error result with no HTTP request; the Gemini client has no such gate and
issues the HTTP request on every call, whatever the credential. -/
theorem credential_fail_fast_spec :
    (∀ (api_key : String) (ctx : Option Ctx) (up : ClaudeUpstream),
        claude_validate_api_key api_key = false →
          claude_generate_response api_key ctx up =
            (format_error_response "Claude" "Invalid Claude API key", false)) ∧
    (∀ (api_key : String) (ctx : Option Ctx) (up : OpenAIUpstream),
        openai_validate_api_key api_key = false →
          openai_generate_response api_key ctx up =
            (format_error_response "OpenAI" "Invalid OpenAI API key", false)) ∧
    (∀ (api_key : String) (ctx : Option Ctx) (up : GeminiUpstream),
        (gemini_generate_response api_key ctx up).2 = true) := by
  refine ⟨?_, ?_, ?_⟩
  · intro k c up h; simp [claude_generate_response, h]
  · intro k c up h; simp [openai_generate_response, h]
  · intro k c up; cases up <;> rfl

/-- Witness for C5 (amended) at concrete credentials. -/
theorem credential_fail_fast_spec_witness :
    claude_validate_api_key "" = false ∧
    claude_generate_response "" none (.exn "unreachable") =
      (format_error_response "Claude" "Invalid Claude API key", false) ∧
    openai_validate_api_key "" = false ∧
    openai_generate_response "" none (.exn "unreachable") =
      (format_error_response "OpenAI" "Invalid OpenAI API key", false) ∧
    (gemini_generate_response "short-key-0" none (.okParsed "hi" [])).2 = true :=
  ⟨rfl, credential_fail_fast_spec.1 "" none _ rfl,
   rfl, credential_fail_fast_spec.2.1 "" none _ rfl,
   credential_fail_fast_spec.2.2 "short-key-0" none _⟩

/-- C6 counterexample: on the exception fallback path of the per-provider
processing task (`test_ai.py` lines 159-166) the ProviderResult dict has
`success=False` but *omits* the accounting fields entirely — they are
absent, not zero. -/
theorem accounting_fields_omitted_counterexample :
    ¬ (∀ (main syn : GenResponse) (synExc exc : Option String),
        (process_claude main syn synExc exc).success = false →
          (process_claude main syn synExc exc).input_tokens = some 0 ∧
          (process_claude main syn synExc exc).output_tokens = some 0 ∧
          (process_claude main syn synExc exc).tokens_used = some 0) := by
  intro h
  have := (h (format_error_response "Claude" "boom")
    (format_error_response "Claude" "boom") none (some "factory error") rfl).1
  simp [process_claude, process_service] at this

/-- C6 (amended): each provider call issues at most one upstream
generation attempt — the HTTP request is issued exactly when the
credential gate passes (unconditionally for Gemini) — and a
ProviderResult assembled on the normal (non-exception) path from a failed
generation carries accounting fields that are present and zero; only the
unexpected-exception fallback dict omits them. -/
theorem provider_accounting_spec :
    (∀ (k : String) (c : Option Ctx) (up : ClaudeUpstream),
        (claude_generate_response k c up).2 = claude_validate_api_key k) ∧
    (∀ (k : String) (c : Option Ctx) (up : OpenAIUpstream),
        (openai_generate_response k c up).2 = openai_validate_api_key k) ∧
    (∀ (k : String) (c : Option Ctx) (up : GeminiUpstream),
        (gemini_generate_response k c up).2 = true) ∧
    (∀ (k : String) (c : Option Ctx) (up : ClaudeUpstream)
        (syn : GenResponse) (synExc : Option String),
        (process_claude (claude_generate_response k c up).1 syn synExc
            none).success = false →
          (process_claude (claude_generate_response k c up).1 syn synExc
              none).input_tokens = some 0 ∧
          (process_claude (claude_generate_response k c up).1 syn synExc
              none).output_tokens = some 0 ∧
          (process_claude (claude_generate_response k c up).1 syn synExc
              none).tokens_used = some 0) ∧
    (∀ (k : String) (c : Option Ctx) (up : OpenAIUpstream)
        (syn : GenResponse) (synExc : Option String),
        (process_openai (openai_generate_response k c up).1 syn synExc
            none).success = false →
          (process_openai (openai_generate_response k c up).1 syn synExc
              none).input_tokens = some 0 ∧
          (process_openai (openai_generate_response k c up).1 syn synExc
              none).output_tokens = some 0 ∧
          (process_openai (openai_generate_response k c up).1 syn synExc
              none).tokens_used = some 0) ∧
    (∀ (k : String) (c : Option Ctx) (up : GeminiUpstream)
        (syn : GenResponse) (synExc : Option String),
        (process_gemini (gemini_generate_response k c up).1 syn synExc
            none).success = false →
          (process_gemini (gemini_generate_response k c up).1 syn synExc
              none).input_tokens = some 0 ∧
          (process_gemini (gemini_generate_response k c up).1 syn synExc
              none).output_tokens = some 0 ∧
          (process_gemini (gemini_generate_response k c up).1 syn synExc
              none).tokens_used = some 0) := by
  refine ⟨?_, ?_, ?_, ?_, ?_, ?_⟩
  · intro k c up
    by_cases hv : claude_validate_api_key k = true <;>
      cases up <;> simp [claude_generate_response, hv]
  · intro k c up
    by_cases hv : openai_validate_api_key k = true <;>
      cases up <;> simp [openai_generate_response, hv]
  · intro k c up
    cases up <;> rfl
  · intro k c up syn synExc h
    by_cases hv : claude_validate_api_key k = true
    · cases up with
      | httpError m =>
          refine ⟨?_, ?_, ?_⟩ <;>
            simp [process_claude, process_service, claude_generate_response,
              hv, format_error_response, truthy_content, extract_tokens_empty,
              calculate_total_tokens]
      | ok text usage =>
          exfalso
          simp [process_claude, process_service, claude_generate_response,
            hv, format_success_response] at h
      | exn m =>
          refine ⟨?_, ?_, ?_⟩ <;>
            simp [process_claude, process_service, claude_generate_response,
              hv, format_error_response, truthy_content, extract_tokens_empty,
              calculate_total_tokens]
    · refine ⟨?_, ?_, ?_⟩ <;>
        simp [process_claude, process_service, claude_generate_response, hv,
          format_error_response, truthy_content, extract_tokens_empty,
          calculate_total_tokens]
  · intro k c up syn synExc h
    by_cases hv : openai_validate_api_key k = true
    · cases up with
      | httpError m =>
          refine ⟨?_, ?_, ?_⟩ <;>
            simp [process_openai, process_service, openai_generate_response,
              hv, format_error_response, truthy_content, extract_tokens_empty,
              calculate_total_tokens]
      | okNoChoices =>
          refine ⟨?_, ?_, ?_⟩ <;>
            simp [process_openai, process_service, openai_generate_response,
              hv, format_error_response, truthy_content, extract_tokens_empty,
              calculate_total_tokens]
      | ok content usage =>
          exfalso
          simp [process_openai, process_service, openai_generate_response,
            hv, format_success_response] at h
      | exn m =>
          refine ⟨?_, ?_, ?_⟩ <;>
            simp [process_openai, process_service, openai_generate_response,
              hv, format_error_response, truthy_content, extract_tokens_empty,
              calculate_total_tokens]
    · refine ⟨?_, ?_, ?_⟩ <;>
        simp [process_openai, process_service, openai_generate_response, hv,
          format_error_response, truthy_content, extract_tokens_empty,
          calculate_total_tokens]
  · intro k c up syn synExc h
    cases up with
    | okParsed text usage =>
        exfalso
        simp [process_gemini, process_service, gemini_generate_response] at h
    | okUnparsable e =>
        refine ⟨?_, ?_, ?_⟩ <;>
          simp [process_gemini, process_service, gemini_generate_response,
            truthy_content, extract_tokens_empty, calculate_total_tokens]
    | httpError status text =>
        refine ⟨?_, ?_, ?_⟩ <;>
          simp [process_gemini, process_service, gemini_generate_response,
            truthy_content, extract_tokens_empty, calculate_total_tokens]
    | netError m =>
        refine ⟨?_, ?_, ?_⟩ <;>
          simp [process_gemini, process_service, gemini_generate_response,
            truthy_content, extract_tokens_empty, calculate_total_tokens]
    | exn m =>
        refine ⟨?_, ?_, ?_⟩ <;>
          simp [process_gemini, process_service, gemini_generate_response,
            truthy_content, extract_tokens_empty, calculate_total_tokens]

/-- Witness for C6 (amended): an invalid-credential Claude generation
(no upstream attempt) processed on the normal path yields a failed
ProviderResult with all accounting fields present and zero. -/
theorem provider_accounting_spec_witness :
    (claude_generate_response "" none (.exn "x")).2 = false ∧
    (process_claude (claude_generate_response "" none (.exn "x")).1
        (format_error_response "Claude" "y") none none).success = false ∧
    (process_claude (claude_generate_response "" none (.exn "x")).1
        (format_error_response "Claude" "y") none none).input_tokens = some 0 ∧
    (process_claude (claude_generate_response "" none (.exn "x")).1
        (format_error_response "Claude" "y") none none).output_tokens = some 0 ∧
    (process_claude (claude_generate_response "" none (.exn "x")).1
        (format_error_response "Claude" "y") none none).tokens_used = some 0 :=
  have h := provider_accounting_spec.2.2.2.1 "" none (.exn "x")
    (format_error_response "Claude" "y") none rfl
  ⟨(provider_accounting_spec.1 "" none (.exn "x")).trans rfl, rfl,
   h.1, h.2.1, h.2.2⟩

/-- A non-empty context with no `temperature` key, exactly as built by the
per-provider processing tasks when web search succeeded (`test_ai.py`
lines 79-83: `context['web_search'] = {...}`). -/
def ctx_web_search_only : Ctx := { web_search := some ⟨true, []⟩ }

/-- C7 counterexample: a Generate call whose caller context is non-empty
but does not specify a temperature is sent with temperature 0.7, not 0 —
`prepare_context` injects the `0.7` default into every non-empty context,
and the clients' `prepared_context.get('temperature', 0)` then finds it. -/
theorem temperature_default_counterexample :
    ¬ (∀ (model : String) (dmt : Int) (c : Ctx), c.temperature = none →
        (claude_build_payload model dmt (some c)).temperature = 0 ∧
        (openai_build_payload model dmt (some c)).temperature = 0 ∧
        (gemini_generation_config dmt (some c)).temperature = 0) := by
  intro h
  have := (h "claude-sonnet-4-20250514" 4096 ctx_web_search_only rfl).1
  rw [show (claude_build_payload "claude-sonnet-4-20250514" 4096
      (some ctx_web_search_only)).temperature = 7/10 from rfl] at this
  norm_num at this

/-- C7 (amended): the providers send
`prepared_context.get('temperature', 0)`, so the payload temperature is 0
exactly when the caller's context is absent or empty (then
`prepare_context` returns the empty dict); a non-empty context without a
`temperature` key is sent with the `prepare_context` default 0.7, and an
explicit temperature passes through. -/
theorem temperature_default_spec :
    (∀ (model : String) (dmt : Int),
        (claude_build_payload model dmt none).temperature = 0 ∧
        (openai_build_payload model dmt none).temperature = 0 ∧
        (gemini_generation_config dmt none).temperature = 0) ∧
    (∀ (model : String) (dmt : Int) (c : Ctx), c.isEmpty = true →
        (claude_build_payload model dmt (some c)).temperature = 0 ∧
        (openai_build_payload model dmt (some c)).temperature = 0 ∧
        (gemini_generation_config dmt (some c)).temperature = 0) ∧
    (∀ (model : String) (dmt : Int) (c : Ctx),
        c.isEmpty = false → c.temperature = none →
        (claude_build_payload model dmt (some c)).temperature = 7/10 ∧
        (openai_build_payload model dmt (some c)).temperature = 7/10 ∧
        (gemini_generation_config dmt (some c)).temperature = 7/10) ∧
    (∀ (model : String) (dmt : Int) (c : Ctx) (t : Rat),
        c.isEmpty = false → c.temperature = some t →
        (claude_build_payload model dmt (some c)).temperature = t ∧
        (openai_build_payload model dmt (some c)).temperature = t ∧
        (gemini_generation_config dmt (some c)).temperature = t) := by
  refine ⟨fun model dmt => ⟨rfl, rfl, rfl⟩, ?_, ?_, ?_⟩
  · intro model dmt c hc
    refine ⟨?_, ?_, ?_⟩ <;>
      simp [claude_build_payload, openai_build_payload,
        gemini_generation_config, prepare_context, hc]
  · intro model dmt c hc ht
    refine ⟨?_, ?_, ?_⟩ <;>
      simp [claude_build_payload, openai_build_payload,
        gemini_generation_config, prepare_context, hc, ht]
  · intro model dmt c t hc ht
    refine ⟨?_, ?_, ?_⟩ <;>
      simp [claude_build_payload, openai_build_payload,
        gemini_generation_config, prepare_context, hc, ht]

/-- Witness for C7 (amended) at concrete contexts: absent, empty, and the
orchestrator's real non-empty web-search context. -/
theorem temperature_default_spec_witness :
    (claude_build_payload "claude-sonnet-4-20250514" 4096 none).temperature = 0 ∧
    Ctx.isEmpty {} = true ∧
    (openai_build_payload "gpt-4o" 4096 (some {})).temperature = 0 ∧
    ctx_web_search_only.isEmpty = false ∧
    (claude_build_payload "claude-sonnet-4-20250514" 4096
        (some ctx_web_search_only)).temperature = 7/10 ∧
    (openai_build_payload "gpt-4o" 4096
        (some ctx_web_search_only)).temperature = 7/10 ∧
    (gemini_generation_config 4096 (some ctx_web_search_only)).temperature = 7/10 :=
  have h3 := temperature_default_spec.2.2.1 "x" 4096 ctx_web_search_only rfl rfl
  ⟨(temperature_default_spec.1 "claude-sonnet-4-20250514" 4096).1, rfl,
   (temperature_default_spec.2.1 "gpt-4o" 4096 {} rfl).2.1, rfl,
   (temperature_default_spec.2.2.1 "claude-sonnet-4-20250514" 4096
     ctx_web_search_only rfl rfl).1,
   (temperature_default_spec.2.2.1 "gpt-4o" 4096
     ctx_web_search_only rfl rfl).2.1,
   h3.2.2⟩

/-- C8: if a provider's main generation succeeded with truthy (non-empty)
content, a failure of the subsequent synopsis step — whether the synopsis
sub-call returned `success=False` or raised — never changes the
ProviderResult's outcome: the result still carries `success=True`, the
main content, and a non-empty fallback synopsis string. -/
theorem synopsis_non_blocking (label tok : String) (main syn : GenResponse)
    (synExc : Option String)
    (hs : main.success = true) (hc : truthy_content main.content = true)
    (hfail : syn.success = false ∨ synExc.isSome = true) :
    (process_service label tok main syn synExc none).success = true ∧
    (process_service label tok main syn synExc none).content = main.content ∧
    (process_service label tok main syn synExc none).synopsis ≠ "" := by
  refine ⟨by simp [process_service, hs], by simp [process_service], ?_⟩
  have hsyn : (process_service label tok main syn synExc none).synopsis =
      (generate_synopsis_with_same_ai syn synExc).synopsis := by
    simp [process_service, hs, hc]
  rw [hsyn]
  cases hx : synExc with
  | none =>
      have hf : syn.success = false := by
        rcases hfail with hf | hf
        · exact hf
        · rw [hx] at hf; simp at hf
      simp only [generate_synopsis_with_same_ai, hf]
      simp only [Bool.false_eq_true, if_false]
      exact append_ne_empty_left _ _ (by decide)
  | some e =>
      simp [generate_synopsis_with_same_ai]

/-- Witness for C8: a successful main generation whose synopsis sub-call
failed with an upstream error. -/
theorem synopsis_non_blocking_witness :
    (process_service "Claude" "claude"
        (format_success_response "Claude" "Paris is the capital of France."
          ⟨some [("input_tokens", 10), ("output_tokens", 5)]⟩)
        (format_error_response "Claude" "Claude API error: overloaded")
        none none).success = true ∧
    (process_service "Claude" "claude"
        (format_success_response "Claude" "Paris is the capital of France."
          ⟨some [("input_tokens", 10), ("output_tokens", 5)]⟩)
        (format_error_response "Claude" "Claude API error: overloaded")
        none none).content = some "Paris is the capital of France." ∧
    (process_service "Claude" "claude"
        (format_success_response "Claude" "Paris is the capital of France."
          ⟨some [("input_tokens", 10), ("output_tokens", 5)]⟩)
        (format_error_response "Claude" "Claude API error: overloaded")
        none none).synopsis ≠ "" :=
  have h := synopsis_non_blocking "Claude" "claude"
    (format_success_response "Claude" "Paris is the capital of France."
      ⟨some [("input_tokens", 10), ("output_tokens", 5)]⟩)
    (format_error_response "Claude" "Claude API error: overloaded")
    none rfl rfl (Or.inl rfl)
  ⟨h.1, h.2.1.trans rfl, h.2.2⟩

/-- C9 counterexample: an explicitly *empty* `services` list does not
default to all configured providers: `data.get('services', [...])`
returns the empty list unchanged, and the fan-out then launches no
provider task at all, unlike an omitted `services` key. -/
theorem empty_services_counterexample :
    ¬ (∀ claude_key openai_key gemini_key : String,
        claude_key ≠ "" → openai_key ≠ "" → gemini_key ≠ "" →
          build_service_tasks (services_requested (some []))
              claude_key openai_key gemini_key =
            build_service_tasks (services_requested none)
              claude_key openai_key gemini_key) := by
  intro h
  exact absurd (h "ck" "ok" "gk" (by decide) (by decide) (by decide)) (by decide)

/-- C9 (amended): an *omitted* `services` key defaults the fan-out to all
three providers (those with configured keys); an explicitly empty list
launches no tasks at all; and unknown service identifiers are never
consulted — appending one changes nothing and raises no error. -/
theorem service_selection_spec :
    services_requested none = default_services ∧
    (∀ claude_key openai_key gemini_key : String,
        claude_key ≠ "" → openai_key ≠ "" → gemini_key ≠ "" →
          build_service_tasks (services_requested none) claude_key openai_key
            gemini_key = ["claude", "openai", "gemini"]) ∧
    (∀ claude_key openai_key gemini_key : String,
        build_service_tasks [] claude_key openai_key gemini_key = []) ∧
    (∀ (services : List String) (x claude_key openai_key gemini_key : String),
        x ∉ default_services →
          build_service_tasks (services ++ [x]) claude_key openai_key
              gemini_key =
            build_service_tasks services claude_key openai_key gemini_key) := by
  refine ⟨rfl, ?_, fun k1 k2 k3 => rfl, ?_⟩
  · intro k1 k2 k3 h1 h2 h3
    have b1 : (k1 != "") = true := bne_iff_ne.mpr h1
    have b2 : (k2 != "") = true := bne_iff_ne.mpr h2
    have b3 : (k3 != "") = true := bne_iff_ne.mpr h3
    simp [build_service_tasks, services_requested, default_services, b1, b2, b3]
  · intro services x k1 k2 k3 hx
    simp only [default_services, List.mem_cons, List.not_mem_nil, or_false,
      not_or] at hx
    obtain ⟨hx1, hx2, hx3⟩ := hx
    simp only [build_service_tasks,
      contains_append_single services x "claude" (Ne.symm hx1),
      contains_append_single services x "openai" (Ne.symm hx2),
      contains_append_single services x "gemini" (Ne.symm hx3)]

/-- Witness for C9 (amended) at concrete key configurations and an
unknown identifier. -/
theorem service_selection_spec_witness :
    build_service_tasks (services_requested none) "ck" "ok" "gk" =
      ["claude", "openai", "gemini"] ∧
    build_service_tasks [] "ck" "ok" "gk" = [] ∧
    build_service_tasks (["claude"] ++ ["grok"]) "ck" "ok" "gk" =
      build_service_tasks ["claude"] "ck" "ok" "gk" :=
  ⟨service_selection_spec.2.1 "ck" "ok" "gk" (by decide) (by decide) (by decide),
   service_selection_spec.2.2.1 "ck" "ok" "gk",
   service_selection_spec.2.2.2 ["claude"] "grok" "ck" "ok" "gk" (by decide)⟩

/-- C1: in-flight deduplication of `search_for_query` under asyncio's
cooperative scheduling.  Along every reachable interleaving of N callers
of one coordinator sharing one cache key, at most one spawned
`_perform_search` task is unresolved ("in flight") at any instant; and in
every state in which all N callers have returned, exactly one search task
was ever spawned, every caller returned that single task's result
(success or failure alike), and the in-flight registry entry for the key
has been removed. -/
theorem search_for_query_dedup (n : Nat) (hn : 1 ≤ n) (s : CoordSys)
    (hreach : CoordReach n s)
    (hdone : ∀ i, i < n → ∃ r : SearchOutcome, s.callers[i]? = some (.done r)) :
    (∀ s', CoordReach n s' → countPending s'.tasks ≤ 1) ∧
    s.tasks.length = 1 ∧
    s.active = none ∧
    (∃ r : SearchOutcome, s.tasks = [.resolved r] ∧
      ∀ i, i < n → s.callers[i]? = some (.done r)) := by
  have inv := coordInv_reach hreach
  obtain ⟨r, hr⟩ := hdone 0 hn
  have htasks := inv.done_resolved 0 r hr
  have hlen : s.tasks.length = 1 := by rw [htasks]; rfl
  have hactive : s.active = none := by
    cases hact : s.active with
    | none => rfl
    | some t =>
      obtain ⟨_, _, _, j, hj⟩ := inv.active_state t hact
      have hjlt : j < n := by
        have hl := lt_length_of_getElem hj
        rwa [coordReach_callers_length hreach] at hl
      obtain ⟨r', hr'⟩ := hdone j hjlt
      rw [hj] at hr'
      exact CallerSt.noConfusion (Option.some_inj.mp hr')
  have hall : ∀ i, i < n → s.callers[i]? = some (.done r) := by
    intro i hi
    obtain ⟨r', hr'⟩ := hdone i hi
    have ht' := inv.done_resolved i r' hr'
    rw [htasks] at ht'
    injection ht' with h1 _
    injection h1 with h3
    rw [← h3] at hr'
    exact hr'
  refine ⟨?_, hlen, hactive, r, htasks, hall⟩
  intro s' h'
  have inv' := coordInv_reach h'
  have hle : countPending s'.tasks ≤ s'.tasks.length :=
    List.length_filter_le _ _
  exact le_trans hle inv'.tasks_le

/-- A concrete search result for the C1 example trace. -/
def exSearchOutcome : SearchOutcome := ⟨true, none, ["r1"], ["s1"], 1⟩

/-- Example trace, step 1: caller 0 spawns and registers the search. -/
def coordExample1 : CoordSys :=
  ⟨none, some 0, [.pending], [.owner 0, .start]⟩

/-- Step 2: caller 1 finds the key in flight and joins as a waiter. -/
def coordExample2 : CoordSys :=
  ⟨none, some 0, [.pending], [.owner 0, .waiter 0]⟩

/-- Step 3: the search task resolves. -/
def coordExample3 : CoordSys :=
  ⟨none, some 0, [.resolved exSearchOutcome], [.owner 0, .waiter 0]⟩

/-- Step 4: the owner resumes — caches the result, pops the registry. -/
def coordExample4 : CoordSys :=
  ⟨some exSearchOutcome, none, [.resolved exSearchOutcome],
   [.done exSearchOutcome, .waiter 0]⟩

/-- Step 5: the waiter resumes with the shared result. -/
def coordExample5 : CoordSys :=
  ⟨some exSearchOutcome, none, [.resolved exSearchOutcome],
   [.done exSearchOutcome, .done exSearchOutcome]⟩

theorem coordExample_reach : CoordReach 2 coordExample5 := by
  have h1 : CoordStep (coordInit 2) coordExample1 :=
    .startOwner _ _ 0 (by decide) rfl rfl (by decide)
  have h2 : CoordStep coordExample1 coordExample2 :=
    .startWaiter _ _ 1 0 (by decide) rfl rfl (by decide)
  have h3 : CoordStep coordExample2 coordExample3 :=
    .resolveTask _ _ 0 exSearchOutcome (by decide) (by decide)
  have h4 : CoordStep coordExample3 coordExample4 :=
    .ownerResume _ _ 0 0 exSearchOutcome (by decide) (by decide) (by decide)
  have h5 : CoordStep coordExample4 coordExample5 :=
    .waiterResume _ _ 1 0 exSearchOutcome (by decide) (by decide) (by decide)
  exact .head h1 (.head h2 (.head h3 (.head h4 (.single h5))))

/-- Witness for C1: a complete interleaving of two concurrent callers —
one spawns the search, one joins it in flight — ending with both done;
the theorem yields one spawned task, a shared result, and a cleared
registry. -/
theorem search_for_query_dedup_witness :
    coordExample5.tasks.length = 1 ∧
    coordExample5.active = none ∧
    (∃ r : SearchOutcome, coordExample5.tasks = [.resolved r] ∧
      ∀ i, i < 2 → coordExample5.callers[i]? = some (.done r)) :=
  have h := search_for_query_dedup 2 (by decide) coordExample5
    coordExample_reach
    (by intro i hi
        interval_cases i
        · exact ⟨exSearchOutcome, rfl⟩
        · exact ⟨exSearchOutcome, rfl⟩)
  ⟨h.2.1, h.2.2.1, h.2.2.2⟩

end AiConsensus
